import Mathlib

/-!
Shallow embedding of the reverse-proxy gateway implemented in
`src/gateway/src/gateway.js` (an Express application forwarding `/api/*`
requests to a single backend with axios), together with theorems settling
the specification's claims about it.

Conventions of the embedding:
* JavaScript objects serialized with `JSON.stringify` are modelled by the
  inductive `Json` below together with `stringify`; JS numbers are modelled
  as integers (every number appearing in the gateway's payloads is one).
* Header maps are association lists of `(name, value)` pairs; the gateway
  reads and writes fixed literal names, so no case folding is modelled
  beyond what the code itself relies on (axios lower-cases response header
  names, Express lower-cases request header names).
* Environment-produced values (fresh UUIDs, the client address resolved by
  `req.ip || req.connection?.remoteAddress || req.socket?.remoteAddress`,
  timestamps, durations) enter the model as parameters.
-/

set_option maxRecDepth 8000

namespace Gateway

/-- JSON values, the data JavaScript's `JSON.parse` / `JSON.stringify` and
Express's `res.json` traffic in.  Numbers are modelled as integers. -/
inductive Json where
  | null : Json
  | bool (b : Bool) : Json
  | num (n : Int) : Json
  | str (s : String) : Json
  | arr (elems : List Json) : Json
  | obj (members : List (String × Json)) : Json

/-- Lower-case hexadecimal digit, as used by `JSON.stringify` in `\u00XX`
escapes of control characters. -/
def hexLower (n : Nat) : Char :=
  if n < 10 then Char.ofNat (48 + n) else Char.ofNat (87 + n)

/-- `JSON.stringify`'s escaping of a single character inside a string
literal. -/
def escapeChar (c : Char) : String :=
  if c = Char.ofNat 34 then "\\\""
  else if c = Char.ofNat 92 then "\\\\"
  else if c = Char.ofNat 8 then "\\b"
  else if c = Char.ofNat 12 then "\\f"
  else if c = Char.ofNat 10 then "\\n"
  else if c = Char.ofNat 13 then "\\r"
  else if c = Char.ofNat 9 then "\\t"
  else if c.toNat < 32 then
    "\\u00" ++ String.singleton (hexLower (c.toNat / 16)) ++
      String.singleton (hexLower (c.toNat % 16))
  else String.singleton c

/-- `JSON.stringify`'s rendering of the characters of a string literal. -/
def escapeString (s : String) : String :=
  String.join (s.toList.map escapeChar)

mutual

/-- `JSON.stringify` (no indentation, as the gateway always calls it). -/
def stringify : Json → String
  | .null => "null"
  | .bool true => "true"
  | .bool false => "false"
  | .num n => toString n
  | .str s => "\"" ++ escapeString s ++ "\""
  | .arr elems => "[" ++ stringifyElems elems ++ "]"
  | .obj members => "\x7b" ++ stringifyMembers members ++ "\x7d"

/-- Comma-separated serialization of a JSON array's elements. -/
def stringifyElems : List Json → String
  | [] => ""
  | [j] => stringify j
  | j :: rest => stringify j ++ "," ++ stringifyElems rest

/-- Comma-separated serialization of a JSON object's members. -/
def stringifyMembers : List (String × Json) → String
  | [] => ""
  | [(k, v)] => "\"" ++ escapeString k ++ "\":" ++ stringify v
  | (k, v) :: rest =>
      "\"" ++ escapeString k ++ "\":" ++ stringify v ++ "," ++
        stringifyMembers rest

end

/-- Truthiness of a JSON value seen as a JavaScript value (the guard
`req.body && ...` in `proxyRequest`). -/
def jsTruthy : Json → Bool
  | .null => false
  | .bool b => b
  | .num n => decide (n ≠ 0)
  | .str s => decide (s ≠ "")
  | .arr _ => true
  | .obj _ => true

/-- `Object.keys(v).length` for a parsed JSON value: an object's member
count, an array's index count, a string's character count, `0` otherwise. -/
def jsKeysLength : Json → Nat
  | .obj members => members.length
  | .arr elems => elems.length
  | .str s => s.length
  | _ => 0

/-- JavaScript's `a || b` for a possibly absent string `a` (absent and the
empty string are falsy). -/
def jsOr (a : Option String) (b : String) : String :=
  match a with
  | some s => if s = "" then b else s
  | none => b

/-- Member lookup on a JSON object (`none` on non-objects). -/
def jsonLookup (key : String) : Json → Option Json
  | .obj members => List.lookup key members
  | _ => none

/-- Default `BACKEND_URL` (gateway.js line 13). -/
def defaultBackendUrl : String := "http://backend:3847"

/-- Default `GATEWAY_PORT` (gateway.js line 10). -/
def defaultGatewayPort : Nat := 5921

/-- Upstream call timeout in milliseconds (gateway.js line 96). -/
def upstreamTimeoutMs : Nat := 30000

/-- `maxContentLength` / `maxBodyLength` of the upstream call
(gateway.js lines 98-99). -/
def maxBodyBytes : Nat := 50 * 1024 * 1024

/-- The correlation id the request-id middleware assigns (gateway.js
lines 20-21): `req.headers[x-request-id] || randomUUID()`. -/
def requestIdOf (inboundHeader : Option String) (freshId : String) : String :=
  jsOr inboundHeader freshId

/-- An inbound `/api/*` request as the `proxyRequest` handler receives it
from Express.  `url` is `req.url` (path plus query string, verbatim);
`query` is `req.query`, the pairs Express parsed out of that query string;
`requestIdHeader` and `contentTypeHeader` are the only inbound headers the
gateway reads, `otherHeaders` holds every remaining inbound header
(`host`, `connection`, `authorization`, ... — never read by the handler);
`body` is `req.body` as produced by `express.json()` (the empty object for
non-JSON or empty bodies); `ip` is the client address resolved by
`req.ip || req.connection?.remoteAddress || req.socket?.remoteAddress`. -/
structure InboundRequest where
  method : String
  url : String
  query : List (String × String)
  requestIdHeader : Option String
  contentTypeHeader : Option String
  otherHeaders : List (String × String)
  body : Json
  ip : String
  protocol : String

/-- Upper-case hexadecimal digit, as produced by `encodeURIComponent`. -/
def hexUpper (n : Nat) : Char :=
  if n < 10 then Char.ofNat (48 + n) else Char.ofNat (55 + n)

/-- Percent-encoding of one byte. -/
def percentEncodeByte (b : Nat) : String :=
  "%" ++ String.singleton (hexUpper (b / 16)) ++
    String.singleton (hexUpper (b % 16))

/-- The characters `encodeURIComponent` leaves unescaped:
`A-Z a-z 0-9 - _ . ! ~ * ' ( )`. -/
def uriUnescaped (c : Char) : Bool :=
  c.isAlphanum || c = Char.ofNat 45 || c = Char.ofNat 95 || c = Char.ofNat 46 ||
    c = Char.ofNat 33 || c = Char.ofNat 126 || c = Char.ofNat 42 ||
    c = Char.ofNat 39 || c = Char.ofNat 40 || c = Char.ofNat 41

/-- The UTF-8 bytes of one character. -/
def utf8Bytes (c : Char) : List Nat :=
  let n := c.toNat
  if n < 128 then [n]
  else if n < 2048 then [192 + n / 64, 128 + n % 64]
  else if n < 65536 then
    [224 + n / 4096, 128 + (n / 64) % 64, 128 + n % 64]
  else
    [240 + n / 262144, 128 + (n / 4096) % 64, 128 + (n / 64) % 64,
     128 + n % 64]

/-- `encodeURIComponent` on one character: unescaped characters pass
through, every other character is replaced by the percent-encoding of its
UTF-8 bytes. -/
def encodeChar (c : Char) : String :=
  if uriUnescaped c then String.singleton c
  else String.join ((utf8Bytes c).map percentEncodeByte)

/-- JavaScript's `encodeURIComponent`. -/
def encodeURIComponent (s : String) : String :=
  String.join (s.toList.map encodeChar)

/-- Does the list start with the pattern? -/
def startsWithList (s pat : List Char) : Bool :=
  match s, pat with
  | _, [] => true
  | [], _ :: _ => false
  | c :: cs, p :: ps => c = p && startsWithList cs ps

/-- Global (leftmost, non-overlapping) replacement of a pattern in a
character list, JavaScript's `String.prototype.replace` with a global
pattern.  The fuel argument (instantiated with the list's length, which a
step never increases) only makes the recursion structural. -/
def replaceAllAux (pat rep : List Char) : Nat → List Char → List Char
  | _, [] => []
  | 0, s => s
  | fuel + 1, c :: cs =>
      if startsWithList (c :: cs) pat ∧ pat ≠ [] then
        rep ++ replaceAllAux pat rep fuel (cs.drop (pat.length - 1))
      else c :: replaceAllAux pat rep fuel cs

/-- JavaScript's `s.replace(pat, rep)` with a global literal pattern. -/
def replaceAllStr (s pat rep : String) : String :=
  String.mk (replaceAllAux pat.toList rep.toList s.toList.length s.toList)

/-- axios's default query-parameter encoder: `encodeURIComponent` with
`%3A %24 %2C %20 %5B %5D` restored to `: $ , + [ ]` (space becomes `+`)
by successive global replacements on the encoded string. -/
def axiosParamEncode (s : String) : String :=
  replaceAllStr (replaceAllStr (replaceAllStr (replaceAllStr (replaceAllStr
    (replaceAllStr (encodeURIComponent s) "%3A" ":") "%24" "$") "%2C" ",")
    "%20" "+") "%5B" "[") "%5D" "]"

/-- axios's default serialization of the `params` option: the pairs are
rendered `key=value` (both sides encoded) and joined with `&`. -/
def serializeParams : List (String × String) → String
  | [] => ""
  | [p] => axiosParamEncode p.1 ++ "=" ++ axiosParamEncode p.2
  | p :: rest =>
      axiosParamEncode p.1 ++ "=" ++ axiosParamEncode p.2 ++ "&" ++
        serializeParams rest

/-- axios discards a `#` fragment (`url.slice(0, url.indexOf(Char 35))`)
from the request URL before appending serialized params. -/
def stripHash (url : String) : String :=
  String.mk (url.toList.takeWhile (fun c => c ≠ Char.ofNat 35))

/-- `url.indexOf(Char 63) !== -1`: does the URL already contain a `?`. -/
def containsQuestionMark (url : String) : Bool :=
  url.toList.contains (Char.ofNat 63)

/-- axios's `buildURL`: when the serialized params are non-empty they are
appended to the URL after `&` if the URL already contains `?`, after `?`
otherwise. -/
def buildURL (url : String) (q : List (String × String)) : String :=
  let sp := serializeParams q
  if sp = "" then url
  else
    let u := stripHash url
    u ++ (if containsQuestionMark u then "&" else "?") ++ sp

/-- The URL of the upstream call the gateway actually issues: the handler
concatenates the backend base URL with `req.url`
(gateway.js lines 61-62) and then passes both that URL and `params:
req.query` to axios (lines 93-94), which appends the serialized params. -/
def effectiveUpstreamUrl (backend : String) (req : InboundRequest) : String :=
  buildURL (backend ++ req.url) req.query

/-- The headers object `proxyRequest` builds for the upstream call
(gateway.js lines 79-88): a fresh object with `Content-Type` (only when
`req.body && Object.keys(req.body).length > 0`), `X-Forwarded-For`,
`X-Forwarded-Proto` and `x-request-id` — no inbound header is copied. -/
def buildUpstreamHeaders (req : InboundRequest) (requestId : String) :
    List (String × String) :=
  (if jsTruthy req.body ∧ 0 < jsKeysLength req.body then
      [("Content-Type", jsOr req.contentTypeHeader "application/json")]
    else []) ++
  [("X-Forwarded-For", req.ip),
   ("X-Forwarded-Proto", if req.protocol = "" then "http" else req.protocol),
   ("x-request-id", requestId)]

/-- `response.data` of an axios call with the default response transform:
the response text is given to `JSON.parse` and kept parsed when that
succeeds (`parsed`), otherwise the raw text is kept as a string (`raw`). -/
inductive AxiosData where
  | parsed (j : Json) : AxiosData
  | raw (text : String) : AxiosData

/-- An HTTP response obtained from the upstream call: status code, headers
(axios lower-cases response header names) and the transformed body.  With
`validateStatus: () => true` (gateway.js line 97) every status code yields
such a response rather than a rejection. -/
structure UpstreamResponse where
  status : Nat
  headers : List (String × String)
  data : AxiosData

/-- `error` object of a rejected axios call: `error.code`,
`error.response` (present when a partial response was received) and
`error.message`. -/
structure AxiosErrorInfo where
  code : Option String
  response : Option UpstreamResponse
  message : String

/-- Outcome of the single upstream attempt inside `proxyRequest`'s `try`
block: the awaited axios promise resolved, rejected with an axios error, or
some other exception was thrown. -/
inductive UpstreamOutcome where
  | ok (r : UpstreamResponse) : UpstreamOutcome
  | axiosError (e : AxiosErrorInfo) : UpstreamOutcome
  | otherError (message : String) : UpstreamOutcome

/-- The response the gateway sends, at the granularity the handler builds
it: the status it sets, the headers it explicitly sets on the response
object, and the body text Express's `res.json` writes
(`JSON.stringify` of its argument). -/
structure GatewayResponse where
  status : Nat
  headers : List (String × String)
  body : String
  deriving DecidableEq

/-- Body text `res.json(x)` writes: `JSON.stringify(x)`; a raw (non-JSON)
string is therefore re-encoded as a JSON string literal. -/
def renderData : AxiosData → String
  | .parsed j => stringify j
  | .raw text => stringify (.str text)

/-- `headersToForward` of gateway.js line 120. -/
def headersToForward : List String := ["content-type", "content-length"]

/-- Response headers the success path forwards (gateway.js lines 120-125):
for each allow-listed name, the upstream value when present and truthy
(`if (response.headers[header])` drops the empty string). -/
def relayHeaders (upstream : List (String × String)) : List (String × String) :=
  headersToForward.filterMap fun h =>
    match List.lookup h upstream with
    | some v => if v = "" then none else some (h, v)
    | none => none

/-- The success path of `proxyRequest` (gateway.js lines 118-127):
`res.status(response.status)`, forward the allow-listed headers, then
`res.json(response.data)`. -/
def relayResponse (r : UpstreamResponse) : GatewayResponse :=
  { status := r.status, headers := relayHeaders r.headers,
    body := renderData r.data }

/-- Body of the 503 response (gateway.js lines 145-149). -/
def unavailableBody (requestId : String) : Json :=
  .obj [("error", .str "Backend service unavailable"),
        ("message",
         .str "The backend service is currently unavailable. Please try again later."),
        ("requestId", .str requestId)]

/-- Body of the 504 response (gateway.js lines 152-156). -/
def timeoutBody (requestId : String) : Json :=
  .obj [("error", .str "Backend service timeout"),
        ("message",
         .str "The backend service did not respond in time. Please try again later."),
        ("requestId", .str requestId)]

/-- Body of the 502 response (gateway.js line 165). -/
def badGatewayBody (requestId : String) : Json :=
  .obj [("error", .str "bad gateway"), ("requestId", .str requestId)]

/-- What became of one `proxyRequest` invocation: a response was written,
or the failure was handed to the enclosing error-handling layer via
`next(error)`. -/
inductive ProxyResult where
  | sent (resp : GatewayResponse) : ProxyResult
  | propagated (message : String) : ProxyResult
  deriving DecidableEq

/-- Tail of the catch block (gateway.js lines 164-168): 502 with the
`bad gateway` body when nothing has been written yet, otherwise
`next(error)`. -/
def proxyFallback (requestId : String) (headersSent : Bool) (msg : String) :
    ProxyResult :=
  if headersSent then .propagated msg
  else .sent ⟨502, [], stringify (badGatewayBody requestId)⟩

/-- `proxyRequest`'s translation of the upstream outcome to a response
(gateway.js lines 90-169): relay any resolved response; classify a
rejection by `error.code` (`ECONNREFUSED` → 503, `ETIMEDOUT`/`ECONNABORTED`
→ 504), else relay a partial `error.response` when one exists, else fall
back to 502/`next(error)`; a non-axios exception also falls back. -/
def proxyResponse (requestId : String) (headersSent : Bool) :
    UpstreamOutcome → ProxyResult
  | .ok r => .sent (relayResponse r)
  | .axiosError e =>
      if e.code = some "ECONNREFUSED" then
        .sent ⟨503, [], stringify (unavailableBody requestId)⟩
      else if e.code = some "ETIMEDOUT" ∨ e.code = some "ECONNABORTED" then
        .sent ⟨504, [], stringify (timeoutBody requestId)⟩
      else
        match e.response with
        | some r => .sent ⟨r.status, [], renderData r.data⟩
        | none => proxyFallback requestId headersSent e.message
  | .otherError msg => proxyFallback requestId headersSent msg

/-- `proxyRequest` issues exactly one axios call.  Modelling the results a
retrying handler could observe as a stream of attempts, the handler
consumes attempt `0` only, so its result is a function of that attempt
alone. -/
def proxyRequestModel (requestId : String) (headersSent : Bool)
    (attempts : Nat → UpstreamOutcome) : ProxyResult :=
  proxyResponse requestId headersSent (attempts 0)

/-- The response headers as finally set for a request: the request-id
middleware ran `res.setHeader` with the correlation id before the handler
(gateway.js line 24), the handler's own header writes follow. -/
def gatewayHeaders (requestId : String) (resp : GatewayResponse) :
    List (String × String) :=
  ("x-request-id", requestId) :: resp.headers

/-- `windowMs` of the `/api` limiter (gateway.js line 48). -/
def rateWindowMs : Nat := 60 * 1000

/-- `max` of the `/api` limiter (gateway.js line 49). -/
def rateLimitMax : Nat := 60

/-- Per-client-identity rate-limit window: request count and window start
time (milliseconds). -/
structure RateLimitWindow where
  count : Nat
  windowStart : Nat
  deriving DecidableEq

/-- Modelled from the spec: the fixed-window counter the configured
`express-rate-limit` middleware (gateway.js lines 47-54) applies per client
identity — that library's source is not part of the repository.  "On each
request: if no window exists or the current time is ≥ window-start + W,
start a new window (count = 1, window-start = now) and admit.  Otherwise
increment count; admit if count ≤ N, else reject."  Returns the updated
window and whether the request is admitted. -/
def rateLimitStep (state : Option RateLimitWindow) (now : Nat) :
    RateLimitWindow × Bool :=
  match state with
  | none => (⟨1, now⟩, true)
  | some w =>
      if w.windowStart + rateWindowMs ≤ now then (⟨1, now⟩, true)
      else (⟨w.count + 1, w.windowStart⟩, decide (w.count + 1 ≤ rateLimitMax))

/-- `rateLimitStep` folded over the request times of one client identity,
collecting each request's admission verdict. -/
def rateLimitRun (state : Option RateLimitWindow) :
    List Nat → Option RateLimitWindow × List Bool
  | [] => (state, [])
  | t :: ts =>
      let step := rateLimitStep state t
      let rest := rateLimitRun (some step.1) ts
      (rest.1, step.2 :: rest.2)

/-- Modelled from the spec: the rejection the configured limiter sends
(`standardHeaders: true`, `legacyHeaders: false`, gateway.js lines 50-51) —
HTTP 429 carrying the standard draft `RateLimit-*` metadata headers
(limit, remaining quota, reset time) and no legacy `X-RateLimit-*`
headers, without forwarding anything to the backend. -/
def rateLimitedResponse (remaining resetSeconds : Nat) : GatewayResponse :=
  { status := 429,
    headers := [("RateLimit-Limit", toString rateLimitMax),
                ("RateLimit-Remaining", toString remaining),
                ("RateLimit-Reset", toString resetSeconds)],
    body := "Too many requests, please try again later." }

/-- The `/api/*` pipeline after the request-id middleware: the limiter
either rejects with `rateLimitedResponse` (the forwarder never runs, so the
upstream outcome is irrelevant) or passes the request to `proxyRequest`. -/
def apiPipeline (admitted : Bool) (requestId : String) (headersSent : Bool)
    (outcome : UpstreamOutcome) (remaining resetSeconds : Nat) : ProxyResult :=
  if admitted then proxyResponse requestId headersSent outcome
  else .sent (rateLimitedResponse remaining resetSeconds)

/-- The completion log the request-id middleware emits on `finish`
(gateway.js lines 28-41). -/
def finishLog (requestId method path : String) (statusCode durationMs : Nat)
    (timestamp : String) : Json :=
  .obj [("service", .str "gateway"), ("level", .str "info"),
        ("requestId", .str requestId), ("method", .str method),
        ("path", .str path), ("statusCode", .num statusCode),
        ("durationMs", .num durationMs), ("timestamp", .str timestamp)]

/-- The outbound-dispatch log (gateway.js lines 66-77). -/
def outboundLog (requestId method path target timestamp : String) : Json :=
  .obj [("service", .str "gateway"), ("level", .str "info"),
        ("requestId", .str requestId), ("direction", .str "outbound"),
        ("method", .str method), ("path", .str path),
        ("targetUrl", .str target), ("timestamp", .str timestamp)]

/-- The upstream-result log (gateway.js lines 103-116). -/
def upstreamResultLog (requestId method path target : String)
    (statusCode durationMs : Nat) (timestamp : String) : Json :=
  .obj [("service", .str "gateway"), ("level", .str "info"),
        ("requestId", .str requestId), ("direction", .str "inbound"),
        ("method", .str method), ("path", .str path),
        ("targetUrl", .str target), ("statusCode", .num statusCode),
        ("durationMs", .num durationMs), ("timestamp", .str timestamp)]

/-- The proxy-error log (gateway.js lines 129-141); `JSON.stringify` drops
the `code` member when `error.code` is `undefined`. -/
def proxyErrorLog (requestId errorMessage : String) (code : Option String)
    (url stack timestamp : String) : Json :=
  .obj ([("service", .str "gateway"), ("level", .str "error"),
         ("requestId", .str requestId), ("message", .str "Proxy error"),
         ("errorMessage", .str errorMessage)] ++
        (match code with
         | some c => [("code", .str c)]
         | none => []) ++
        [("url", .str url), ("stack", .str stack),
         ("timestamp", .str timestamp)])

/-- Every log record the gateway emits for one proxied request, in order:
the outbound-dispatch log, then (per the outcome) the upstream-result or
proxy-error log, then the completion log. -/
def requestLogs (requestId method path target : String)
    (outcome : UpstreamOutcome) (durationMs finalStatus totalMs : Nat)
    (ts1 ts2 ts3 stack : String) : List Json :=
  outboundLog requestId method path target ts1 ::
  (match outcome with
   | .ok r => [upstreamResultLog requestId method path target r.status
                 durationMs ts2]
   | .axiosError e => [proxyErrorLog requestId e.message e.code target
                         stack ts2]
   | .otherError m => [proxyErrorLog requestId m none target stack ts2]) ++
  [finishLog requestId method path finalStatus totalMs ts3]

/-! ## Helper lemmas -/

/-- Every header the success path forwards is allow-listed and carries the
upstream's value. -/
lemma mem_relayHeaders (uh : List (String × String)) (p : String × String)
    (hp : p ∈ relayHeaders uh) :
    (p.1 = "content-type" ∨ p.1 = "content-length")
      ∧ List.lookup p.1 uh = some p.2 := by
  rw [relayHeaders, List.mem_filterMap] at hp
  obtain ⟨h, hmem, hf⟩ := hp
  have hcases : h = "content-type" ∨ h = "content-length" := by
    simpa [headersToForward] using hmem
  cases hlk : List.lookup h uh with
  | none => rw [hlk] at hf; simp at hf
  | some v =>
      rw [hlk] at hf
      by_cases hv : v = ""
      · simp [hv] at hf
      · simp only [hv, if_false, Option.some.injEq] at hf
        subst hf
        exact ⟨hcases, hlk⟩

/-- Every allow-listed upstream header with a truthy value is forwarded by
the success path. -/
lemma relayHeaders_complete (uh : List (String × String)) (h : String)
    (hmem : h ∈ headersToForward) (v : String)
    (hlk : List.lookup h uh = some v) (hv : v ≠ "") :
    (h, v) ∈ relayHeaders uh := by
  rw [relayHeaders, List.mem_filterMap]
  refine ⟨h, hmem, ?_⟩
  rw [hlk]
  simp [hv]

/-- Inside one window (every request time below `windowStart + W`), the
fixed-window counter just counts: after `k` prior requests, the run admits
request `k + i + 1` exactly when `k + i + 1 ≤ N`. -/
lemma rateLimitRun_inWindow (t0 : Nat) (ts : List Nat) :
    ∀ k : Nat, (∀ t ∈ ts, t < t0 + rateWindowMs) →
    rateLimitRun (some ⟨k, t0⟩) ts
      = (some ⟨k + ts.length, t0⟩,
         (List.range ts.length).map
           (fun i => decide (k + i + 1 ≤ rateLimitMax))) := by
  induction ts with
  | nil => intro k _; simp [rateLimitRun]
  | cons t ts ih =>
      intro k h
      have ht : t < t0 + rateWindowMs := h t (by simp)
      have hnot : ¬ (t0 + rateWindowMs ≤ t) := Nat.not_le.mpr ht
      have ihk := ih (k + 1) (fun u hu => h u (by simp [hu]))
      simp only [rateLimitRun, rateLimitStep, hnot, if_false, ihk,
        List.length_cons]
      refine congrArg₂ Prod.mk ?_ ?_
      · have harith : k + 1 + ts.length = k + (ts.length + 1) := by omega
        rw [harith]
      · rw [List.range_succ_eq_map, List.map_cons, List.map_map]
        refine congrArg₂ List.cons (by norm_num) ?_
        refine List.map_congr_left (fun i _ => ?_)
        have harith : k + 1 + i + 1 = k + (i + 1) + 1 := by omega
        rw [Function.comp_apply, harith]

/-- Element extraction from a mapped range. -/
lemma getD_range_map (f : Nat → Bool) (n i : Nat) (h : i < n) :
    ((List.range n).map f).getD i false = f i := by
  rw [List.getD_eq_getElem?_getD, List.getElem?_map, List.getElem?_range h]
  rfl

/-! ## Claims -/

/-- C1 (amended).  On any upstream HTTP response the gateway relays exactly
the upstream status code; every upstream header it forwards is
`content-type` or `content-length` with the upstream's value, and each of
those two is forwarded whenever present with a truthy value; the body is
always `JSON.stringify` of the transformed upstream data — a body that was
valid JSON is re-encoded as JSON, and any other body text is re-encoded as
a JSON string literal of that text (not byte-for-byte); the correlation id
is present in the response headers. -/
theorem relay_status_allowlist_and_reencoded_body (requestId : String)
    (r : UpstreamResponse) :
    (relayResponse r).status = r.status
    ∧ (∀ p ∈ (relayResponse r).headers,
        (p.1 = "content-type" ∨ p.1 = "content-length")
          ∧ List.lookup p.1 r.headers = some p.2)
    ∧ (∀ h ∈ headersToForward, ∀ v, List.lookup h r.headers = some v →
        v ≠ "" → (h, v) ∈ (relayResponse r).headers)
    ∧ (relayResponse r).body = renderData r.data
    ∧ (∀ j, r.data = .parsed j → (relayResponse r).body = stringify j)
    ∧ (∀ text, r.data = .raw text →
        (relayResponse r).body = stringify (.str text))
    ∧ List.lookup "x-request-id"
        (gatewayHeaders requestId (relayResponse r)) = some requestId := by
  refine ⟨rfl, ?_, ?_, rfl, ?_, ?_, ?_⟩
  · intro p hp
    exact mem_relayHeaders r.headers p hp
  · intro h hmem v hlk hv
    exact relayHeaders_complete r.headers h hmem v hlk hv
  · intro j hj
    simp [relayResponse, renderData, hj]
  · intro text ht
    simp [relayResponse, renderData, ht]
  · rfl

/-- C1 counterexample.  An upstream 200 whose body is the five bytes
`hello` (not valid JSON, so axios leaves it a string) is not relayed
byte-for-byte: `res.json` re-encodes it as the seven-byte JSON string
literal `"hello"`. -/
theorem relay_raw_body_not_byte_for_byte :
    (relayResponse ⟨200, [("content-type", "text/plain"),
        ("content-length", "5")], .raw "hello"⟩).body ≠ "hello"
    ∧ (relayResponse ⟨200, [("content-type", "text/plain"),
        ("content-length", "5")], .raw "hello"⟩).body = "\"hello\"" := by
  exact ⟨by decide, by decide⟩

/-- Witness for C1: the spec's own example — upstream 404 with body
`\x7b"msg":"not found"\x7d` is relayed with status 404, forwarded
content-type, and the correlation id in the response headers. -/
theorem relay_status_allowlist_and_reencoded_body_witness :
    (relayResponse ⟨404, [("content-type", "application/json"),
        ("content-length", "21")],
        .parsed (.obj [("msg", .str "not found")])⟩).status = 404
    ∧ ("content-type", "application/json") ∈
        (relayResponse ⟨404, [("content-type", "application/json"),
          ("content-length", "21")],
          .parsed (.obj [("msg", .str "not found")])⟩).headers
    ∧ (relayResponse ⟨404, [("content-type", "application/json"),
        ("content-length", "21")],
        .parsed (.obj [("msg", .str "not found")])⟩).body
        = "\x7b\"msg\":\"not found\"\x7d"
    ∧ List.lookup "x-request-id"
        (gatewayHeaders "abc"
          (relayResponse ⟨404, [("content-type", "application/json"),
            ("content-length", "21")],
            .parsed (.obj [("msg", .str "not found")])⟩)) = some "abc" := by
  have h := relay_status_allowlist_and_reencoded_body "abc"
    ⟨404, [("content-type", "application/json"), ("content-length", "21")],
      .parsed (.obj [("msg", .str "not found")])⟩
  refine ⟨h.1, ?_, ?_, h.2.2.2.2.2.2⟩
  · exact h.2.2.1 "content-type" (by decide) "application/json"
      (by decide) (by decide)
  · rw [h.2.2.2.2.1 (.obj [("msg", .str "not found")]) rfl]
    decide

/-- C2.  When the single upstream attempt rejects with `ECONNREFUSED`
(whatever partial response or message the error carries), the gateway sends
exactly HTTP 503 with the stable JSON body whose keys are `error` (value
`Backend service unavailable`), `message`, and `requestId` holding the
request's correlation id; and since the handler consumes only attempt 0,
no second upstream attempt influences the result. -/
theorem refused_maps_to_503 (requestId message : String)
    (presp : Option UpstreamResponse) (headersSent : Bool)
    (attempts : Nat → UpstreamOutcome)
    (hattempt : attempts 0 = .axiosError ⟨some "ECONNREFUSED", presp, message⟩) :
    proxyRequestModel requestId headersSent attempts
      = .sent ⟨503, [], stringify (unavailableBody requestId)⟩
    ∧ jsonLookup "error" (unavailableBody requestId)
        = some (.str "Backend service unavailable")
    ∧ jsonLookup "message" (unavailableBody requestId)
        = some (.str "The backend service is currently unavailable. Please try again later.")
    ∧ jsonLookup "requestId" (unavailableBody requestId)
        = some (.str requestId)
    ∧ (∀ other : Nat → UpstreamOutcome, other 0 = attempts 0 →
        proxyRequestModel requestId headersSent other
          = proxyRequestModel requestId headersSent attempts) := by
  refine ⟨?_, rfl, rfl, rfl, ?_⟩
  · simp [proxyRequestModel, hattempt, proxyResponse]
  · intro other hother
    simp [proxyRequestModel, hother]

/-- Witness for C2 at a concrete refused attempt. -/
theorem refused_maps_to_503_witness :
    proxyRequestModel "abc" false
        (fun _ => .axiosError ⟨some "ECONNREFUSED", none, "connect ECONNREFUSED"⟩)
      = .sent ⟨503, [], stringify (unavailableBody "abc")⟩
    ∧ jsonLookup "requestId" (unavailableBody "abc") = some (.str "abc") := by
  have h := refused_maps_to_503 "abc" "connect ECONNREFUSED" none false
    (fun _ => .axiosError ⟨some "ECONNREFUSED", none, "connect ECONNREFUSED"⟩) rfl
  exact ⟨h.1, h.2.2.2.1⟩

/-- C3.  When the single upstream attempt rejects with `ETIMEDOUT` or
`ECONNABORTED` (axios's timeout / abort codes), the gateway sends exactly
HTTP 504 with the stable JSON body whose keys are `error` (value
`Backend service timeout`), `message`, and `requestId` holding the
request's correlation id. -/
theorem timeout_maps_to_504 (requestId message code : String)
    (presp : Option UpstreamResponse) (headersSent : Bool)
    (attempts : Nat → UpstreamOutcome)
    (hcode : code = "ETIMEDOUT" ∨ code = "ECONNABORTED")
    (hattempt : attempts 0 = .axiosError ⟨some code, presp, message⟩) :
    proxyRequestModel requestId headersSent attempts
      = .sent ⟨504, [], stringify (timeoutBody requestId)⟩
    ∧ jsonLookup "error" (timeoutBody requestId)
        = some (.str "Backend service timeout")
    ∧ jsonLookup "message" (timeoutBody requestId)
        = some (.str "The backend service did not respond in time. Please try again later.")
    ∧ jsonLookup "requestId" (timeoutBody requestId) = some (.str requestId) := by
  refine ⟨?_, rfl, rfl, rfl⟩
  rcases hcode with rfl | rfl <;> simp [proxyRequestModel, hattempt, proxyResponse]

/-- Witness for C3 at a concrete timed-out attempt. -/
theorem timeout_maps_to_504_witness :
    proxyRequestModel "abc" false
        (fun _ => .axiosError ⟨some "ECONNABORTED", none, "timeout of 30000ms exceeded"⟩)
      = .sent ⟨504, [], stringify (timeoutBody "abc")⟩
    ∧ jsonLookup "requestId" (timeoutBody "abc") = some (.str "abc") := by
  have h := timeout_maps_to_504 "abc" "timeout of 30000ms exceeded"
    "ECONNABORTED" none false
    (fun _ => .axiosError ⟨some "ECONNABORTED", none, "timeout of 30000ms exceeded"⟩)
    (Or.inr rfl) rfl
  exact ⟨h.1, h.2.2.2⟩

/-- C4.  A failure that is neither connection-refused nor timeout/abort and
carries no partial response — an axios error with any other (or no) `code`
and no `response`, or a non-axios exception — yields HTTP 502 with the JSON
body `\x7berror: bad gateway, requestId\x7d` when nothing has been written
to the caller yet, and is instead propagated to the enclosing
error-handling layer (`next(error)`) when a response has already begun. -/
theorem unclassified_maps_to_502_or_propagates (requestId message : String)
    (code : Option String) (headersSent : Bool)
    (hc1 : code ≠ some "ECONNREFUSED") (hc2 : code ≠ some "ETIMEDOUT")
    (hc3 : code ≠ some "ECONNABORTED") :
    proxyResponse requestId headersSent (.axiosError ⟨code, none, message⟩)
      = (if headersSent then .propagated message
         else .sent ⟨502, [], stringify (badGatewayBody requestId)⟩)
    ∧ proxyResponse requestId headersSent (.otherError message)
      = (if headersSent then .propagated message
         else .sent ⟨502, [], stringify (badGatewayBody requestId)⟩)
    ∧ jsonLookup "error" (badGatewayBody requestId) = some (.str "bad gateway")
    ∧ jsonLookup "requestId" (badGatewayBody requestId)
        = some (.str requestId) := by
  refine ⟨?_, ?_, rfl, rfl⟩
  · simp [proxyResponse, proxyFallback, hc1, hc2, hc3]
  · simp [proxyResponse, proxyFallback]

/-- Witness for C4: a DNS failure (`ENOTFOUND`, no partial response) maps
to 502 before any write, and is propagated once a write has begun. -/
theorem unclassified_maps_to_502_or_propagates_witness :
    proxyResponse "abc" false (.axiosError ⟨some "ENOTFOUND", none, "boom"⟩)
      = .sent ⟨502, [], stringify (badGatewayBody "abc")⟩
    ∧ proxyResponse "abc" true (.axiosError ⟨some "ENOTFOUND", none, "boom"⟩)
      = .propagated "boom"
    ∧ jsonLookup "error" (badGatewayBody "abc") = some (.str "bad gateway") := by
  have h0 := unclassified_maps_to_502_or_propagates "abc" "boom"
    (some "ENOTFOUND") false (by decide) (by decide) (by decide)
  have h1 := unclassified_maps_to_502_or_propagates "abc" "boom"
    (some "ENOTFOUND") true (by decide) (by decide) (by decide)
  exact ⟨by simpa using h0.1, by simpa using h1.1, h0.2.2.1⟩

/-- C5.  Within one fixed rate-limit window (all request times below the
first request's time plus `windowMs`), the `i+1`-st request of a client
identity is admitted exactly when `i + 1 ≤ 60`: the first 60 are admitted
and every later one — in particular the 61st — is rejected.  A rejected
request is answered with HTTP 429 carrying the standard `RateLimit-*`
metadata headers, and the forwarder never runs: the pipeline's result does
not depend on the upstream outcome at all. -/
theorem rate_limit_fixed_window (t0 : Nat) (rest : List Nat)
    (hwin : ∀ t ∈ rest, t < t0 + rateWindowMs)
    (requestId : String) (headersSent : Bool) (remaining resetSeconds : Nat) :
    (∀ i, i < rest.length + 1 →
        ((rateLimitRun none (t0 :: rest)).2.getD i false
          = decide (i + 1 ≤ rateLimitMax)))
    ∧ (∀ outcome1 outcome2 : UpstreamOutcome,
        apiPipeline false requestId headersSent outcome1 remaining resetSeconds
          = apiPipeline false requestId headersSent outcome2 remaining
              resetSeconds)
    ∧ (∀ outcome : UpstreamOutcome,
        apiPipeline false requestId headersSent outcome remaining resetSeconds
          = .sent (rateLimitedResponse remaining resetSeconds))
    ∧ (rateLimitedResponse remaining resetSeconds).status = 429
    ∧ List.lookup "RateLimit-Limit"
        (rateLimitedResponse remaining resetSeconds).headers
        = some (toString rateLimitMax)
    ∧ List.lookup "RateLimit-Remaining"
        (rateLimitedResponse remaining resetSeconds).headers
        = some (toString remaining)
    ∧ List.lookup "RateLimit-Reset"
        (rateLimitedResponse remaining resetSeconds).headers
        = some (toString resetSeconds) := by
  have hrun : rateLimitRun none (t0 :: rest)
      = ((rateLimitRun (some ⟨1, t0⟩) rest).1,
         true :: (rateLimitRun (some ⟨1, t0⟩) rest).2) := rfl
  have hwin1 := rateLimitRun_inWindow t0 rest 1 hwin
  refine ⟨?_, ?_, ?_, rfl, rfl, rfl, rfl⟩
  · intro i hi
    rw [hrun, hwin1]
    match i with
    | 0 => rfl
    | j + 1 =>
        have hj : j < rest.length := by omega
        show ((List.range rest.length).map
          (fun i => decide (1 + i + 1 ≤ rateLimitMax))).getD j false
          = decide (j + 1 + 1 ≤ rateLimitMax)
        rw [getD_range_map _ _ _ hj]
        have harith : 1 + j + 1 = j + 1 + 1 := by omega
        rw [harith]
  · intro outcome1 outcome2
    rfl
  · intro outcome
    rfl

/-- Witness for C5: 61 requests at time 0 from one identity — requests 1
and 60 admitted, request 61 rejected; the rejection response has
status 429. -/
theorem rate_limit_fixed_window_witness :
    ((rateLimitRun none (0 :: List.replicate 60 0)).2.getD 0 false = true)
    ∧ ((rateLimitRun none (0 :: List.replicate 60 0)).2.getD 59 false = true)
    ∧ ((rateLimitRun none (0 :: List.replicate 60 0)).2.getD 60 false = false)
    ∧ (rateLimitedResponse 0 60).status = 429 := by
  have h := rate_limit_fixed_window 0 (List.replicate 60 0)
    (by intro t ht; rw [List.eq_of_mem_replicate ht]; decide) "abc" false 0 60
  refine ⟨?_, ?_, ?_, h.2.2.2.1⟩
  · rw [h.1 0 (by decide)]; decide
  · rw [h.1 59 (by decide)]; decide
  · rw [h.1 60 (by decide)]; decide

/-- C6.  The correlation id round-trip: a non-empty inbound `x-request-id`
value is reused verbatim; an absent or empty one is replaced by the freshly
generated id, which is non-empty; the chosen id is always set on the
response headers; and every log record emitted for the request (outbound
dispatch, upstream result or proxy error, completion) carries that same id
in its `requestId` field. -/
theorem correlation_id_round_trip (inbound : Option String) (fresh : String)
    (hfresh : fresh ≠ "") (resp : GatewayResponse)
    (method path target stack ts1 ts2 ts3 : String)
    (outcome : UpstreamOutcome) (durationMs finalStatus totalMs : Nat) :
    (∀ s, inbound = some s → s ≠ "" → requestIdOf inbound fresh = s)
    ∧ ((inbound = none ∨ inbound = some "") →
        requestIdOf inbound fresh = fresh)
    ∧ requestIdOf inbound fresh ≠ ""
    ∧ List.lookup "x-request-id"
        (gatewayHeaders (requestIdOf inbound fresh) resp)
        = some (requestIdOf inbound fresh)
    ∧ (∀ e ∈ requestLogs (requestIdOf inbound fresh) method path target
          outcome durationMs finalStatus totalMs ts1 ts2 ts3 stack,
        jsonLookup "requestId" e
          = some (.str (requestIdOf inbound fresh))) := by
  refine ⟨?_, ?_, ?_, rfl, ?_⟩
  · intro s hs hne
    subst hs
    simp [requestIdOf, jsOr, hne]
  · rintro (rfl | rfl) <;> simp [requestIdOf, jsOr]
  · cases inbound with
    | none => simpa [requestIdOf, jsOr] using hfresh
    | some s =>
        by_cases hs : s = "" <;> simp [requestIdOf, jsOr, hs, hfresh]
  · intro e he
    cases outcome with
    | ok r =>
        simp only [requestLogs, List.cons_append, List.mem_cons,
          List.mem_singleton, List.nil_append, List.mem_nil_iff,
          or_false] at he
        rcases he with rfl | rfl | rfl <;> rfl
    | axiosError err =>
        simp only [requestLogs, List.cons_append, List.mem_cons,
          List.mem_singleton, List.nil_append, List.mem_nil_iff,
          or_false] at he
        rcases he with rfl | rfl | rfl
        · rfl
        · cases err.code <;> rfl
        · rfl
    | otherError m =>
        simp only [requestLogs, List.cons_append, List.mem_cons,
          List.mem_singleton, List.nil_append, List.mem_nil_iff,
          or_false] at he
        rcases he with rfl | rfl | rfl <;> rfl

/-- Witness for C6: inbound header `ABC` is reused and appears in the
response headers and in a concrete emitted log record. -/
theorem correlation_id_round_trip_witness :
    requestIdOf (some "ABC") "11111111-2222-3333-4444-555555555555" = "ABC"
    ∧ requestIdOf none "11111111-2222-3333-4444-555555555555"
        = "11111111-2222-3333-4444-555555555555"
    ∧ List.lookup "x-request-id"
        (gatewayHeaders (requestIdOf (some "ABC")
          "11111111-2222-3333-4444-555555555555") ⟨200, [], "null"⟩)
        = some (requestIdOf (some "ABC")
            "11111111-2222-3333-4444-555555555555")
    ∧ jsonLookup "requestId"
        (outboundLog (requestIdOf (some "ABC")
          "11111111-2222-3333-4444-555555555555") "GET" "/api/items"
          "http://backend:3847/api/items" "t1")
        = some (.str (requestIdOf (some "ABC")
            "11111111-2222-3333-4444-555555555555")) := by
  have h := correlation_id_round_trip (some "ABC")
    "11111111-2222-3333-4444-555555555555" (by decide) ⟨200, [], "null"⟩
    "GET" "/api/items" "http://backend:3847/api/items" "stack" "t1" "t2" "t3"
    (.otherError "m") 1 200 2
  refine ⟨h.1 "ABC" rfl (by decide), ?_, h.2.2.2.1, ?_⟩
  · exact (correlation_id_round_trip none
      "11111111-2222-3333-4444-555555555555" (by decide) ⟨200, [], "null"⟩
      "GET" "/api/items" "http://backend:3847/api/items" "stack" "t1" "t2"
      "t3" (.otherError "m") 1 200 2).2.1 (Or.inl rfl)
  · exact h.2.2.2.2 _ (by simp [requestLogs])

/-- C7 counterexample.  For the inbound request `GET /api/items?x=1`
(Express parses its query as `x = 1`), the upstream call targets
`http://backend:3847/api/items?x=1&x=1`: the query string arrives once via
URL concatenation and axios appends the serialized `params: req.query` a
second time, so the upstream URL is not the verbatim concatenation and the
parameter `x=1` is conveyed twice. -/
theorem query_param_conveyed_twice :
    effectiveUpstreamUrl defaultBackendUrl
      { method := "GET", url := "/api/items?x=1", query := [("x", "1")],
        requestIdHeader := none, contentTypeHeader := none,
        otherHeaders := [], body := .obj [], ip := "1.2.3.4",
        protocol := "http" }
      = "http://backend:3847/api/items?x=1&x=1"
    ∧ effectiveUpstreamUrl defaultBackendUrl
      { method := "GET", url := "/api/items?x=1", query := [("x", "1")],
        requestIdHeader := none, contentTypeHeader := none,
        otherHeaders := [], body := .obj [], ip := "1.2.3.4",
        protocol := "http" }
      ≠ defaultBackendUrl ++ "/api/items?x=1" := by
  exact ⟨by decide, by decide⟩

/-- C7 (amended).  The upstream target URL is the configured backend base
URL concatenated with the inbound path and query string verbatim — no path
rewriting, no trailing-slash normalization — after which axios appends the
serialized query parameters once more (after `&`, the concatenated URL
already containing `?`), so each inbound query parameter is conveyed twice;
only a request without query parameters targets exactly the concatenated
URL. -/
theorem upstream_url_concat_then_params_reappended (backend : String)
    (req : InboundRequest)
    (hnohash : stripHash (backend ++ req.url) = backend ++ req.url)
    (hq : containsQuestionMark (backend ++ req.url) = true)
    (hsp : serializeParams req.query ≠ "") :
    effectiveUpstreamUrl backend req
      = backend ++ req.url ++ "&" ++ serializeParams req.query
    ∧ (∀ (b : String) (r : InboundRequest), r.query = [] →
        effectiveUpstreamUrl b r = b ++ r.url) := by
  constructor
  · unfold effectiveUpstreamUrl buildURL
    rw [if_neg hsp, hnohash]
    simp only [hq, if_true]
  · intro b r hr
    simp [effectiveUpstreamUrl, buildURL, hr, serializeParams]

/-- Witness for C7 (amended) at the request `GET /api/items?x=1`. -/
theorem upstream_url_concat_then_params_reappended_witness :
    effectiveUpstreamUrl defaultBackendUrl
      { method := "GET", url := "/api/items?x=1", query := [("x", "1")],
        requestIdHeader := none, contentTypeHeader := none,
        otherHeaders := [], body := .obj [], ip := "1.2.3.4",
        protocol := "http" }
      = defaultBackendUrl ++ "/api/items?x=1" ++ "&" ++
          serializeParams [("x", "1")] := by
  exact (upstream_url_concat_then_params_reappended defaultBackendUrl
    { method := "GET", url := "/api/items?x=1", query := [("x", "1")],
      requestIdHeader := none, contentTypeHeader := none,
      otherHeaders := [], body := .obj [], ip := "1.2.3.4",
      protocol := "http" } (by decide) (by decide) (by decide)).1

/-- The inbound `Host` header and the hop-by-hop header names of
RFC 9110 / RFC 2616 §13.5.1, which the claim asserts are never carried by
the upstream request. -/
def hopByHopHeaderNames : List String :=
  ["Host", "Connection", "Keep-Alive", "Proxy-Authenticate",
   "Proxy-Authorization", "TE", "Trailer", "Transfer-Encoding", "Upgrade"]

/-- C8.  The headers object built for the upstream request never contains
the inbound request's `Host`, `Connection` or any other hop-by-hop header
(it is built from scratch, whatever the inbound headers were), and always
contains the client-IP (`X-Forwarded-For`), protocol (`X-Forwarded-Proto`)
and correlation-id (`x-request-id`) forwarding headers with the gateway's
values. -/
theorem no_host_or_hop_headers_forwarded (req : InboundRequest)
    (requestId : String) :
    (∀ h ∈ hopByHopHeaderNames,
        List.lookup h (buildUpstreamHeaders req requestId) = none)
    ∧ List.lookup "X-Forwarded-For" (buildUpstreamHeaders req requestId)
        = some req.ip
    ∧ List.lookup "X-Forwarded-Proto" (buildUpstreamHeaders req requestId)
        = some (if req.protocol = "" then "http" else req.protocol)
    ∧ List.lookup "x-request-id" (buildUpstreamHeaders req requestId)
        = some requestId := by
  unfold buildUpstreamHeaders
  split <;>
    refine ⟨fun h hmem => ?_, rfl, rfl, rfl⟩ <;>
    fin_cases hmem <;> rfl

/-- Witness for C8 at a concrete request carrying inbound `Host`,
`Connection` and `Authorization` headers. -/
theorem no_host_or_hop_headers_forwarded_witness :
    List.lookup "Host"
      (buildUpstreamHeaders
        { method := "GET", url := "/api/items", query := [],
          requestIdHeader := none, contentTypeHeader := none,
          otherHeaders := [("host", "gw.example"), ("connection", "keep-alive"),
            ("authorization", "Bearer t")],
          body := .obj [], ip := "1.2.3.4", protocol := "http" } "abc") = none
    ∧ List.lookup "X-Forwarded-For"
      (buildUpstreamHeaders
        { method := "GET", url := "/api/items", query := [],
          requestIdHeader := none, contentTypeHeader := none,
          otherHeaders := [("host", "gw.example"), ("connection", "keep-alive"),
            ("authorization", "Bearer t")],
          body := .obj [], ip := "1.2.3.4", protocol := "http" } "abc")
        = some "1.2.3.4" := by
  have h := no_host_or_hop_headers_forwarded
    { method := "GET", url := "/api/items", query := [],
      requestIdHeader := none, contentTypeHeader := none,
      otherHeaders := [("host", "gw.example"), ("connection", "keep-alive"),
        ("authorization", "Bearer t")],
      body := .obj [], ip := "1.2.3.4", protocol := "http" } "abc"
  exact ⟨h.1 "Host" (by decide), h.2.1⟩

/-- C9 counterexample.  A transport failure carrying a partial 500
response with a `content-type: text/html` header is relayed with that
status and body, but — unlike the step-4 relay of a valid response — with
no upstream header forwarded: the gateway's `error.response` branch calls
only `res.status(...).json(...)`. -/
theorem partial_response_headers_not_forwarded :
    proxyResponse "abc" false (.axiosError ⟨some "ERR_BAD_RESPONSE",
        some ⟨500, [("content-type", "text/html"), ("content-length", "5")],
          .raw "oops!"⟩, "m"⟩)
      = .sent ⟨500, [], stringify (.str "oops!")⟩
    ∧ proxyResponse "abc" false (.axiosError ⟨some "ERR_BAD_RESPONSE",
        some ⟨500, [("content-type", "text/html"), ("content-length", "5")],
          .raw "oops!"⟩, "m"⟩)
      ≠ .sent (relayResponse ⟨500, [("content-type", "text/html"),
          ("content-length", "5")], .raw "oops!"⟩)
    ∧ List.lookup "content-type"
        (relayResponse ⟨500, [("content-type", "text/html"),
          ("content-length", "5")], .raw "oops!"⟩).headers
        = some "text/html" := by
  exact ⟨by decide, by decide, by decide⟩

/-- C9 (amended).  When the upstream call fails with an axios error that is
neither connection-refused nor timeout/abort but carries a partial
response object, the gateway relays that response's status code and its
JSON-re-encoded body (as step 4 encodes bodies), but forwards none of the
upstream headers — the allow-listed `content-type` / `content-length`
forwarding of step 4 does not happen on this path. -/
theorem partial_response_relays_status_and_body_only
    (requestId : String) (headersSent : Bool) (e : AxiosErrorInfo)
    (r : UpstreamResponse)
    (hc1 : e.code ≠ some "ECONNREFUSED") (hc2 : e.code ≠ some "ETIMEDOUT")
    (hc3 : e.code ≠ some "ECONNABORTED") (hresp : e.response = some r) :
    proxyResponse requestId headersSent (.axiosError e)
      = .sent ⟨r.status, [], renderData r.data⟩ := by
  obtain ⟨code, resp, msg⟩ := e
  simp only at hresp
  subst hresp
  simp only at hc1 hc2 hc3
  simp [proxyResponse, hc1, hc2, hc3]

/-- Witness for C9 (amended) at a concrete partial 500 JSON response. -/
theorem partial_response_relays_status_and_body_only_witness :
    proxyResponse "abc" false (.axiosError ⟨some "ERR_BAD_RESPONSE",
        some ⟨500, [("content-type", "application/json")],
          .parsed (.obj [("detail", .str "bad")])⟩, "m"⟩)
      = .sent ⟨500, [],
          renderData (.parsed (.obj [("detail", .str "bad")]))⟩ := by
  exact partial_response_relays_status_and_body_only "abc" false
    ⟨some "ERR_BAD_RESPONSE",
      some ⟨500, [("content-type", "application/json")],
        .parsed (.obj [("detail", .str "bad")])⟩, "m"⟩
    ⟨500, [("content-type", "application/json")],
      .parsed (.obj [("detail", .str "bad")])⟩
    (by decide) (by decide) (by decide) rfl

/-- End-to-end inbound header names the claim singles out as never
forwarded. -/
def endToEndHeaderNames : List String := ["Authorization", "Cookie", "Accept"]

/-- C10.  Every header of the upstream request is one the gateway itself
builds (`Content-Type`, `X-Forwarded-For`, `X-Forwarded-Proto`,
`x-request-id`); inbound end-to-end headers such as `Authorization`,
`Cookie` and `Accept` are never present; and `Content-Type` is present
exactly when the parsed body is truthy with at least one key — so the empty
object that `express.json()` yields for non-JSON or empty bodies, and an
explicit empty JSON object body, both give an upstream request with no
`Content-Type` header. -/
theorem only_gateway_built_headers_sent_upstream (req : InboundRequest)
    (requestId : String) :
    (∀ p ∈ buildUpstreamHeaders req requestId,
        p.1 = "Content-Type" ∨ p.1 = "X-Forwarded-For"
          ∨ p.1 = "X-Forwarded-Proto" ∨ p.1 = "x-request-id")
    ∧ (∀ h ∈ endToEndHeaderNames,
        List.lookup h (buildUpstreamHeaders req requestId) = none)
    ∧ ((List.lookup "Content-Type"
          (buildUpstreamHeaders req requestId)).isSome
        ↔ (jsTruthy req.body ∧ 0 < jsKeysLength req.body))
    ∧ (req.body = .obj [] →
        List.lookup "Content-Type" (buildUpstreamHeaders req requestId)
          = none) := by
  by_cases hb : jsTruthy req.body ∧ 0 < jsKeysLength req.body
  · rw [buildUpstreamHeaders, if_pos hb]
    refine ⟨?_, ?_, ?_, ?_⟩
    · intro p hp
      simp only [List.cons_append, List.nil_append, List.mem_cons,
        List.mem_singleton, List.mem_nil_iff, or_false] at hp
      rcases hp with rfl | rfl | rfl | rfl <;> simp
    · intro h hmem
      fin_cases hmem <;> rfl
    · simp [List.lookup, hb]
    · intro hbody
      rw [hbody] at hb
      simp [jsKeysLength] at hb
  · rw [buildUpstreamHeaders, if_neg hb]
    refine ⟨?_, ?_, ?_, ?_⟩
    · intro p hp
      simp only [List.nil_append, List.mem_cons, List.mem_singleton,
        List.mem_nil_iff, or_false] at hp
      rcases hp with rfl | rfl | rfl <;> simp
    · intro h hmem
      fin_cases hmem <;> rfl
    · simp [List.lookup, hb]
    · intro _
      rfl

/-- Witness for C10: with the empty-object body `express.json()` produces
for a non-JSON body, no `Content-Type` goes upstream and `Authorization`
is absent; with body `\x7b"a":1\x7d` the inbound content-type is used. -/
theorem only_gateway_built_headers_sent_upstream_witness :
    List.lookup "Content-Type"
      (buildUpstreamHeaders
        { method := "POST", url := "/api/items", query := [],
          requestIdHeader := none, contentTypeHeader := some "text/plain",
          otherHeaders := [("authorization", "Bearer t")],
          body := .obj [], ip := "1.2.3.4", protocol := "http" } "abc") = none
    ∧ List.lookup "Authorization"
      (buildUpstreamHeaders
        { method := "POST", url := "/api/items", query := [],
          requestIdHeader := none, contentTypeHeader := some "text/plain",
          otherHeaders := [("authorization", "Bearer t")],
          body := .obj [], ip := "1.2.3.4", protocol := "http" } "abc") = none
    ∧ (List.lookup "Content-Type"
        (buildUpstreamHeaders
          { method := "POST", url := "/api/items", query := [],
            requestIdHeader := none,
            contentTypeHeader := some "application/json",
            otherHeaders := [], body := .obj [("a", .num 1)],
            ip := "1.2.3.4", protocol := "http" } "abc")).isSome := by
  have h0 := only_gateway_built_headers_sent_upstream
    { method := "POST", url := "/api/items", query := [],
      requestIdHeader := none, contentTypeHeader := some "text/plain",
      otherHeaders := [("authorization", "Bearer t")],
      body := .obj [], ip := "1.2.3.4", protocol := "http" } "abc"
  have h1 := only_gateway_built_headers_sent_upstream
    { method := "POST", url := "/api/items", query := [],
      requestIdHeader := none, contentTypeHeader := some "application/json",
      otherHeaders := [], body := .obj [("a", .num 1)],
      ip := "1.2.3.4", protocol := "http" } "abc"
  exact ⟨h0.2.2.2 rfl, h0.2.1 "Authorization" (by decide),
    h1.2.2.1.mpr (by decide)⟩

end Gateway
